import Mathlib

/-!
Verification of `pkg/kubemark/hollow_kubelet.go` (kubemark hollow kubelet
harness).  The Go file is embedded shallowly:

* the two configuration aggregates (`options.KubeletFlags` and
  `kubeletconfig.KubeletConfiguration`) become Lean structures holding the
  fields this file reads or writes, plus one representative field each that
  the harness leaves at its external default;
* results of calls into code outside this file (`options.NewKubeletFlags`,
  `options.NewKubeletConfiguration`, `utils.MakeTempDirOrDie`, the three
  `ProbeVolumePlugins` calls) are threaded through an explicit `Env`
  record, so the harness functions stay pure;
* Go `time.Duration` values are `Int` nanoseconds, Go `int` is `Int`
  (64-bit machine word, unbounded in the model; conversion to `int32`
  fields is made explicit by `int32Of`);
* `Run` is modelled as a function from the receiver and the result of the
  external `kubeletapp.RunKubelet` call to the list of calls it issues and
  its final outcome (fatal exit versus blocking forever on `select {}`);
* a Go function that can panic returns an `Option`.
-/

/-- One nanosecond is the unit; `time.Second` in Go. -/
def second : Int := 1000000000

/-- The Go constant `time.Minute`. -/
def minute : Int := 60 * second

/-- Conversion `int32(x)` applied by Go to a machine-word integer `x`:
two's-complement truncation to 32 bits. -/
def int32Of (x : Int) : Int := (x + 2 ^ 31) % 2 ^ 32 - 2 ^ 31

/-- The constant `kubeletconfig.HairpinVeth`. -/
def HairpinVeth : String := "hairpin-veth"

/-- The constant `kubetypes.ResolvConfDefault`. -/
def ResolvConfDefault : String := "/etc/resolv.conf"

/-- The fields of `options.KubeletFlags` that `hollow_kubelet.go` assigns,
plus `NodeIP`, a field the harness never touches and which therefore keeps
whatever `options.NewKubeletFlags` put there.  Durations are nanoseconds. -/
structure KubeletFlags where
  EnableServer : Bool
  RootDirectory : String
  HostnameOverride : String
  MinimumGCAge : Int
  MaxContainerCount : Int
  MaxPerPodContainerCount : Int
  RegisterNode : Bool
  RegisterSchedulable : Bool
  ProviderID : String
  NodeIP : String
deriving DecidableEq

/-- The fields of `kubeletconfig.KubeletConfiguration` that
`hollow_kubelet.go` assigns, plus `ClusterDomain`, a field the harness
never touches.  `int32`/`int64` fields are `Int`; duration fields are
`Int` nanoseconds (`FileCheckFrequency` stands for
`FileCheckFrequency.Duration`, and so on). -/
structure KubeletConfiguration where
  StaticPodURL : String
  Address : String
  Port : Int
  ReadOnlyPort : Int
  StaticPodPath : String
  FileCheckFrequency : Int
  HTTPCheckFrequency : Int
  NodeStatusUpdateFrequency : Int
  NodeStatusReportFrequency : Int
  SyncFrequency : Int
  EvictionPressureTransitionPeriod : Int
  MaxPods : Int
  PodsPerCore : Int
  ClusterDNS : List String
  ImageGCHighThresholdPercent : Int
  ImageGCLowThresholdPercent : Int
  VolumeStatsAggPeriod : Int
  CgroupRoot : String
  CPUCFSQuota : Bool
  EnableControllerAttachDetach : Bool
  EnableDebuggingHandlers : Bool
  CgroupsPerQOS : Bool
  HairpinMode : String
  MaxOpenFiles : Int
  RegistryBurst : Int
  RegistryPullQPS : Int
  ResolverConfig : String
  KubeletCgroups : String
  SerializeImagePulls : Bool
  SystemCgroups : String
  ProtectKernelDefaults : Bool
  ClusterDomain : String
deriving DecidableEq

/-- An opaque handle standing for `*clientset.Clientset`. -/
structure Clientset where
  id : Nat
deriving DecidableEq

/-- An opaque handle standing for `cadvisor.Interface`. -/
structure CadvisorInterface where
  id : Nat
deriving DecidableEq

/-- An opaque handle standing for `*dockershim.ClientConfig`. -/
structure DockerClientConfig where
  id : Nat
deriving DecidableEq

/-- An opaque handle standing for `cm.ContainerManager`. -/
structure ContainerManager where
  id : Nat
deriving DecidableEq

/-- An opaque handle standing for `cloudprovider.Interface`. -/
structure CloudProvider where
  id : Nat
deriving DecidableEq

/-- An opaque handle standing for `*server.TLSOptions`. -/
structure TLSOptions where
  id : Nat
deriving DecidableEq

/-- An opaque handle standing for one `volume.VolumePlugin`. -/
structure VolumePlugin where
  name : String
deriving DecidableEq

/-- Which implementation sits behind the `kubecontainer.OSInterface`
slot: `&containertest.FakeOS{}` or some real implementation. -/
inductive OSImpl where
  | fakeOS : OSImpl
  | realOS : String → OSImpl
deriving DecidableEq

/-- Which implementation sits behind the `*oom.OOMAdjuster` slot:
`oom.NewFakeOOMAdjuster()` or a real adjuster. -/
inductive OOMAdjusterImpl where
  | fakeOOMAdjuster : OOMAdjusterImpl
  | realOOMAdjuster : String → OOMAdjusterImpl
deriving DecidableEq

/-- Which implementation sits behind the `subpath.Interface` slot:
`&subpath.FakeSubpath{}` or a real one. -/
inductive SubpathImpl where
  | fakeSubpath : SubpathImpl
  | realSubpath : String → SubpathImpl
deriving DecidableEq

/-- Which implementation sits behind the `hostutil.HostUtils` slot:
`hostutil.NewFakeHostUtil(pathMap)` or a real one. -/
inductive HostUtilImpl where
  | fakeHostUtil : Option (List (String × String)) → HostUtilImpl
  | realHostUtil : String → HostUtilImpl
deriving DecidableEq

/-- Which implementation sits behind the `mount.Interface` slot;
`mount.New(path)` carries its mounter path argument. -/
inductive MounterImpl where
  | mountNew : String → MounterImpl
  | otherMounter : String → MounterImpl
deriving DecidableEq

/-- The structure `kubelet.Dependencies`, restricted to the fields `hollow_kubelet.go`
fills in.  Pointer-typed collaborators are `Option`s (`none` = Go `nil`). -/
structure Dependencies where
  KubeClient : Option Clientset
  HeartbeatClient : Option Clientset
  DockerClientConfig : Option DockerClientConfig
  CAdvisorInterface : CadvisorInterface
  Cloud : Option CloudProvider
  OSInterface : OSImpl
  ContainerManager : ContainerManager
  VolumePlugins : List VolumePlugin
  TLSOptions : Option TLSOptions
  OOMAdjuster : OOMAdjusterImpl
  Mounter : MounterImpl
  Subpather : SubpathImpl
  HostUtil : HostUtilImpl
deriving DecidableEq

/-- The structure `kubemark.HollowKubelet`. -/
structure HollowKubelet where
  KubeletFlags : KubeletFlags
  KubeletConfiguration : KubeletConfiguration
  KubeletDeps : Dependencies
deriving DecidableEq

/-- The structure `options.KubeletServer`, as built inside `Run`: the flags and the
configuration embedded by value. -/
structure KubeletServer where
  KubeletFlags : KubeletFlags
  KubeletConfiguration : KubeletConfiguration
deriving DecidableEq

/-- One invocation of the external entry point
`kubeletapp.RunKubelet(kubeServer, kubeDeps, runOnce)`. -/
structure RunKubeletCall where
  server : KubeletServer
  deps : Dependencies
  runOnce : Bool
deriving DecidableEq

/-- How a call to `Run` ends: `klog.Fatalf` (process exit) when the
external runtime returned an error, or parked forever on `select {}`. -/
inductive RunOutcome where
  | fatalExit : String → RunOutcome
  | blockedForever : RunOutcome
deriving DecidableEq

/-- Results of the calls `hollow_kubelet.go` makes into code outside this
file, threaded explicitly: the two fresh temporary directories made by
`utils.MakeTempDirOrDie`, the default objects from
`options.NewKubeletFlags` and `options.NewKubeletConfiguration` (`none`
models the error case, which the Go code turns into a panic), and the
three probed volume-plugin lists. -/
structure Env where
  testRootDir : String
  podFilePath : String
  defaultFlags : KubeletFlags
  defaultConfig : Option KubeletConfiguration
  emptydirPlugins : List VolumePlugin
  secretPlugins : List VolumePlugin
  projectedPlugins : List VolumePlugin
deriving DecidableEq

/-- Function `GetHollowKubeletConfig` from `hollow_kubelet.go`: builds the flags
struct by overriding fields of the default flags, then the configuration
struct by overriding fields of the default configuration; `none` models
the `panic(err)` taken when `options.NewKubeletConfiguration` failed. -/
def GetHollowKubeletConfig (env : Env) (nodeName : String)
    (kubeletPort kubeletReadOnlyPort maxPods podsPerCore : Int) :
    Option (KubeletFlags × KubeletConfiguration) :=
  -- Flags struct
  let f : KubeletFlags :=
    { env.defaultFlags with
      EnableServer := true
      RootDirectory := env.testRootDir
      HostnameOverride := nodeName
      MinimumGCAge := 1 * minute
      MaxContainerCount := 100
      MaxPerPodContainerCount := 2
      RegisterNode := true
      RegisterSchedulable := true
      ProviderID := "kubemark://" ++ nodeName }
  -- Config struct
  match env.defaultConfig with
  | none => none
  | some c0 =>
    let c : KubeletConfiguration :=
      { c0 with
        StaticPodURL := ""
        Address := "0.0.0.0"
        Port := int32Of kubeletPort
        ReadOnlyPort := int32Of kubeletReadOnlyPort
        StaticPodPath := env.podFilePath
        FileCheckFrequency := 20 * second
        HTTPCheckFrequency := 20 * second
        NodeStatusUpdateFrequency := 10 * second
        NodeStatusReportFrequency := minute
        SyncFrequency := 10 * second
        EvictionPressureTransitionPeriod := 5 * minute
        MaxPods := int32Of maxPods
        PodsPerCore := int32Of podsPerCore
        ClusterDNS := []
        ImageGCHighThresholdPercent := 90
        ImageGCLowThresholdPercent := 80
        VolumeStatsAggPeriod := minute
        CgroupRoot := ""
        CPUCFSQuota := true
        EnableControllerAttachDetach := false
        EnableDebuggingHandlers := true
        CgroupsPerQOS := false
        HairpinMode := HairpinVeth
        MaxOpenFiles := 1024
        RegistryBurst := 10
        RegistryPullQPS := 5
        ResolverConfig := ResolvConfDefault
        KubeletCgroups := "/kubelet"
        SerializeImagePulls := true
        SystemCgroups := ""
        ProtectKernelDefaults := false }
    some (f, c)

/-- Function `NewHollowKubelet` from `hollow_kubelet.go`: probes the three
volume-plugin lists, assembles the `kubelet.Dependencies` bundle with the
fake collaborators, and stores the given flags and configuration. -/
def NewHollowKubelet (env : Env) (flags : KubeletFlags)
    (config : KubeletConfiguration)
    (client heartbeatClient : Option Clientset)
    (cadvisorInterface : CadvisorInterface)
    (dockerClientConfig : Option DockerClientConfig)
    (containerManager : ContainerManager) : HollowKubelet :=
  let volumePlugins := env.emptydirPlugins
  let volumePlugins := volumePlugins ++ env.secretPlugins
  let volumePlugins := volumePlugins ++ env.projectedPlugins
  let d : Dependencies :=
    { KubeClient := client
      HeartbeatClient := heartbeatClient
      DockerClientConfig := dockerClientConfig
      CAdvisorInterface := cadvisorInterface
      Cloud := none
      OSInterface := OSImpl.fakeOS
      ContainerManager := containerManager
      VolumePlugins := volumePlugins
      TLSOptions := none
      OOMAdjuster := OOMAdjusterImpl.fakeOOMAdjuster
      Mounter := MounterImpl.mountNew ""
      Subpather := SubpathImpl.fakeSubpath
      HostUtil := HostUtilImpl.fakeHostUtil none }
  { KubeletFlags := flags
    KubeletConfiguration := config
    KubeletDeps := d }

/-- Method `Run` from `hollow_kubelet.go`.  `runKubeletErr` is the result of the
single external `kubeletapp.RunKubelet` call (`none` = Go `nil` error).
The result is the receiver after the method (it is never written to), the
list of `RunKubelet` invocations made, and the outcome: `klog.Fatalf`
when the external runtime errored, otherwise blocked on `select {}`. -/
def Run (hk : HollowKubelet) (runKubeletErr : Option String) :
    HollowKubelet × List RunKubeletCall × RunOutcome :=
  let call : RunKubeletCall :=
    { server :=
        { KubeletFlags := hk.KubeletFlags
          KubeletConfiguration := hk.KubeletConfiguration }
      deps := hk.KubeletDeps
      runOnce := false }
  match runKubeletErr with
  | some err =>
    (hk, [call],
      RunOutcome.fatalExit
        ("Failed to run HollowKubelet: " ++ err ++ ". Exiting."))
  | none => (hk, [call], RunOutcome.blockedForever)

/-- A concrete stand-in for the object `options.NewKubeletFlags` returns;
its field values are irrelevant to every theorem below. -/
def sampleFlags : KubeletFlags :=
  { EnableServer := false
    RootDirectory := "/var/lib/kubelet"
    HostnameOverride := ""
    MinimumGCAge := 0
    MaxContainerCount := -1
    MaxPerPodContainerCount := 1
    RegisterNode := true
    RegisterSchedulable := true
    ProviderID := ""
    NodeIP := "" }

/-- A concrete stand-in for the object `options.NewKubeletConfiguration`
returns; its field values are irrelevant to every theorem below. -/
def sampleConfig : KubeletConfiguration :=
  { StaticPodURL := ""
    Address := "0.0.0.0"
    Port := 10250
    ReadOnlyPort := 10255
    StaticPodPath := ""
    FileCheckFrequency := 20 * second
    HTTPCheckFrequency := 20 * second
    NodeStatusUpdateFrequency := 10 * second
    NodeStatusReportFrequency := minute
    SyncFrequency := minute
    EvictionPressureTransitionPeriod := 5 * minute
    MaxPods := 110
    PodsPerCore := 0
    ClusterDNS := []
    ImageGCHighThresholdPercent := 85
    ImageGCLowThresholdPercent := 80
    VolumeStatsAggPeriod := minute
    CgroupRoot := ""
    CPUCFSQuota := true
    EnableControllerAttachDetach := true
    EnableDebuggingHandlers := true
    CgroupsPerQOS := true
    HairpinMode := "promiscuous-bridge"
    MaxOpenFiles := 1000000
    RegistryBurst := 10
    RegistryPullQPS := 5
    ResolverConfig := ResolvConfDefault
    KubeletCgroups := ""
    SerializeImagePulls := true
    SystemCgroups := ""
    ProtectKernelDefaults := false
    ClusterDomain := "" }

/-- A concrete environment: one possible outcome of the external calls
(one pair of fresh temporary directories, default objects, plugin lists). -/
def envA : Env :=
  { testRootDir := "/tmp/hollow-kubelet.111"
    podFilePath := "/tmp/hollow-kubelet.111/static-pods222"
    defaultFlags := sampleFlags
    defaultConfig := some sampleConfig
    emptydirPlugins := [⟨"kubernetes.io/empty-dir"⟩]
    secretPlugins := [⟨"kubernetes.io/secret"⟩]
    projectedPlugins := [⟨"kubernetes.io/projected"⟩] }

/-- The same environment as `envA` except that `utils.MakeTempDirOrDie`
produced a different fresh root directory, as it does on another run. -/
def envB : Env :=
  { envA with testRootDir := "/tmp/hollow-kubelet.333" }

/-- The flags/configuration pair `GetHollowKubeletConfig` yields in the
environment `envA` at one concrete input tuple. -/
def sampleOut : KubeletFlags × KubeletConfiguration :=
  (GetHollowKubeletConfig envA "n" 80 81 5 3).getD (sampleFlags, sampleConfig)

/-- Characterisation of a successful `GetHollowKubeletConfig` call: the
default configuration existed, the flags are the default flags with the
nine overrides of lines 115–123, and the configuration is the default
configuration with the thirty-one overrides of lines 131–164. -/
theorem getHollowKubeletConfig_cases (env : Env) (n : String)
    (p rp mp ppc : Int) (fc : KubeletFlags × KubeletConfiguration)
    (h : GetHollowKubeletConfig env n p rp mp ppc = some fc) :
    ∃ c0, env.defaultConfig = some c0 ∧
      fc.1 = { env.defaultFlags with
        EnableServer := true
        RootDirectory := env.testRootDir
        HostnameOverride := n
        MinimumGCAge := 1 * minute
        MaxContainerCount := 100
        MaxPerPodContainerCount := 2
        RegisterNode := true
        RegisterSchedulable := true
        ProviderID := "kubemark://" ++ n } ∧
      fc.2 = { c0 with
        StaticPodURL := ""
        Address := "0.0.0.0"
        Port := int32Of p
        ReadOnlyPort := int32Of rp
        StaticPodPath := env.podFilePath
        FileCheckFrequency := 20 * second
        HTTPCheckFrequency := 20 * second
        NodeStatusUpdateFrequency := 10 * second
        NodeStatusReportFrequency := minute
        SyncFrequency := 10 * second
        EvictionPressureTransitionPeriod := 5 * minute
        MaxPods := int32Of mp
        PodsPerCore := int32Of ppc
        ClusterDNS := []
        ImageGCHighThresholdPercent := 90
        ImageGCLowThresholdPercent := 80
        VolumeStatsAggPeriod := minute
        CgroupRoot := ""
        CPUCFSQuota := true
        EnableControllerAttachDetach := false
        EnableDebuggingHandlers := true
        CgroupsPerQOS := false
        HairpinMode := HairpinVeth
        MaxOpenFiles := 1024
        RegistryBurst := 10
        RegistryPullQPS := 5
        ResolverConfig := ResolvConfDefault
        KubeletCgroups := "/kubelet"
        SerializeImagePulls := true
        SystemCgroups := ""
        ProtectKernelDefaults := false } := by
  unfold GetHollowKubeletConfig at h
  cases hd : env.defaultConfig with
  | none => rw [hd] at h; simp at h
  | some c0 =>
    rw [hd] at h
    simp only [Option.some.injEq] at h
    subst h
    exact ⟨c0, rfl, rfl, rfl⟩

/-- Arithmetic of the `int32(x)` conversion: the result is congruent to
`x` modulo `2^32`, lies in the signed 32-bit range, is `x` itself when
`x` lies in that range, and differs from `x` otherwise. -/
theorem int32Of_spec (x : Int) :
    (int32Of x - x) % 2 ^ 32 = 0
    ∧ -(2 ^ 31) ≤ int32Of x ∧ int32Of x < 2 ^ 31
    ∧ (-(2 ^ 31) ≤ x ∧ x < 2 ^ 31 → int32Of x = x)
    ∧ (x < -(2 ^ 31) ∨ 2 ^ 31 ≤ x → int32Of x ≠ x) := by
  have h31 : (2 : Int) ^ 31 = 2147483648 := by norm_num
  have h32 : (2 : Int) ^ 32 = 4294967296 := by norm_num
  unfold int32Of
  rw [h31, h32]
  omega

/-- C1: the two failure modes.  `GetHollowKubeletConfig` aborts (returns
no value, modelling the panic) exactly when constructing the default
configuration object failed, and `Run` exits fatally exactly when the
external `RunKubelet` call returned an error — with the exact fatal
message — and otherwise blocks forever; no other operation fails. -/
theorem hollow_failure_modes (env : Env) (n : String) (p rp mp ppc : Int)
    (hk : HollowKubelet) (err : Option String) :
    ((GetHollowKubeletConfig env n p rp mp ppc).isNone
        ↔ env.defaultConfig.isNone)
    ∧ ((Run hk err).2.2 = RunOutcome.blockedForever ↔ err = none)
    ∧ (∀ e, err = some e →
        (Run hk err).2.2 = RunOutcome.fatalExit
          ("Failed to run HollowKubelet: " ++ e ++ ". Exiting.")) := by
  refine ⟨?_, ?_, ?_⟩
  · cases hd : env.defaultConfig <;> simp [GetHollowKubeletConfig, hd]
  · cases err <;> simp [Run]
  · intro e he
    subst he
    simp [Run]

/-- C1 witness: both failure-mode equivalences evaluated at a concrete
environment, receiver and error value. -/
theorem hollow_failure_modes_witness :
    ((GetHollowKubeletConfig envA "n" 80 81 5 3).isNone
        ↔ (envA.defaultConfig).isNone)
    ∧ ((Run (NewHollowKubelet envA sampleFlags sampleConfig none none
          ⟨0⟩ none ⟨0⟩) (some "boom")).2.2 = RunOutcome.blockedForever
        ↔ (some "boom" : Option String) = none)
    ∧ (∀ e, (some "boom" : Option String) = some e →
        (Run (NewHollowKubelet envA sampleFlags sampleConfig none none
          ⟨0⟩ none ⟨0⟩) (some "boom")).2.2 = RunOutcome.fatalExit
          ("Failed to run HollowKubelet: " ++ e ++ ". Exiting.")) :=
  hollow_failure_modes envA "n" 80 81 5 3
    (NewHollowKubelet envA sampleFlags sampleConfig none none ⟨0⟩ none ⟨0⟩)
    (some "boom")

/-- C3: when the external runtime call returns no error, `Run` parks on
`select {}`: its outcome is to block forever, never returning. -/
theorem run_blocks_forever_on_success (hk : HollowKubelet) :
    (Run hk none).2.2 = RunOutcome.blockedForever := rfl

/-- C4: `Run` issues exactly one `RunKubelet` call, whose server argument
embeds precisely the stored flags and configuration, whose dependency
argument is precisely the stored bundle, and whose run-once flag is
`false` — whatever the external call then returns. -/
theorem run_calls_runkubelet_once (hk : HollowKubelet)
    (err : Option String) :
    (Run hk err).2.1 =
      [{ server :=
           { KubeletFlags := hk.KubeletFlags
             KubeletConfiguration := hk.KubeletConfiguration }
         deps := hk.KubeletDeps
         runOnce := false }] := by
  cases err <;> rfl

/-- C6: for every combination of constructor arguments, the dependency
bundle built by `NewHollowKubelet` carries the fake OS interface, the
fake OOM adjuster, the fake subpath handler and the fake host util. -/
theorem new_hollow_kubelet_fake_deps (env : Env) (flags : KubeletFlags)
    (config : KubeletConfiguration) (client hb : Option Clientset)
    (ca : CadvisorInterface) (dcc : Option DockerClientConfig)
    (cm : ContainerManager) :
    (NewHollowKubelet env flags config client hb ca dcc cm).KubeletDeps.OSInterface
        = OSImpl.fakeOS
    ∧ (NewHollowKubelet env flags config client hb ca dcc cm).KubeletDeps.OOMAdjuster
        = OOMAdjusterImpl.fakeOOMAdjuster
    ∧ (NewHollowKubelet env flags config client hb ca dcc cm).KubeletDeps.Subpather
        = SubpathImpl.fakeSubpath
    ∧ (NewHollowKubelet env flags config client hb ca dcc cm).KubeletDeps.HostUtil
        = HostUtilImpl.fakeHostUtil none :=
  ⟨rfl, rfl, rfl, rfl⟩

/-- C7: the flags and configuration are never mutated after construction:
`NewHollowKubelet` stores them unchanged, `Run` leaves the receiver
unchanged, and the single call `Run` builds reads exactly the stored
values. -/
theorem flags_and_config_not_mutated (env : Env) (flags : KubeletFlags)
    (config : KubeletConfiguration) (client hb : Option Clientset)
    (ca : CadvisorInterface) (dcc : Option DockerClientConfig)
    (cm : ContainerManager) (err : Option String) :
    (NewHollowKubelet env flags config client hb ca dcc cm).KubeletFlags = flags
    ∧ (NewHollowKubelet env flags config client hb ca dcc cm).KubeletConfiguration
        = config
    ∧ (Run (NewHollowKubelet env flags config client hb ca dcc cm) err).1
        = NewHollowKubelet env flags config client hb ca dcc cm
    ∧ (∀ call ∈ (Run (NewHollowKubelet env flags config client hb ca dcc cm) err).2.1,
        call.server.KubeletFlags = flags
        ∧ call.server.KubeletConfiguration = config) := by
  refine ⟨rfl, rfl, ?_, ?_⟩
  · cases err <;> rfl
  · intro call hc
    cases err <;> simp [Run, NewHollowKubelet] at hc <;> subst hc <;> exact ⟨rfl, rfl⟩

/-- C7 witness: the frame property evaluated at a concrete environment,
arguments and error value. -/
theorem flags_and_config_not_mutated_witness :
    (NewHollowKubelet envA sampleFlags sampleConfig none none ⟨0⟩ none ⟨0⟩).KubeletFlags
        = sampleFlags
    ∧ (NewHollowKubelet envA sampleFlags sampleConfig none none ⟨0⟩ none ⟨0⟩).KubeletConfiguration
        = sampleConfig
    ∧ (Run (NewHollowKubelet envA sampleFlags sampleConfig none none ⟨0⟩ none ⟨0⟩) none).1
        = NewHollowKubelet envA sampleFlags sampleConfig none none ⟨0⟩ none ⟨0⟩
    ∧ (∀ call ∈ (Run (NewHollowKubelet envA sampleFlags sampleConfig none none ⟨0⟩ none ⟨0⟩) none).2.1,
        call.server.KubeletFlags = sampleFlags
        ∧ call.server.KubeletConfiguration = sampleConfig) :=
  flags_and_config_not_mutated envA sampleFlags sampleConfig none none ⟨0⟩ none ⟨0⟩ none

/-- C8: the volume-plugin list in the bundle is exactly the emptydir
plugins, then the secret plugins, then the projected plugins; and the
bundle's cloud provider and TLS options are `nil`. -/
theorem volume_plugins_concat_and_nil_fields (env : Env)
    (flags : KubeletFlags) (config : KubeletConfiguration)
    (client hb : Option Clientset) (ca : CadvisorInterface)
    (dcc : Option DockerClientConfig) (cm : ContainerManager) :
    (NewHollowKubelet env flags config client hb ca dcc cm).KubeletDeps.VolumePlugins
        = env.emptydirPlugins ++ env.secretPlugins ++ env.projectedPlugins
    ∧ (NewHollowKubelet env flags config client hb ca dcc cm).KubeletDeps.Cloud = none
    ∧ (NewHollowKubelet env flags config client hb ca dcc cm).KubeletDeps.TLSOptions
        = none :=
  ⟨rfl, rfl, rfl⟩

/-- C2 counterexample: with the same five inputs, two runs whose fresh
temporary root directories differ (`envA` versus `envB`) produce
different flags structures, so the output does not depend on the five
arguments alone. -/
theorem hollow_config_not_input_deterministic :
    GetHollowKubeletConfig envA "node" 0 0 0 0
      ≠ GetHollowKubeletConfig envB "node" 0 0 0 0 := by decide

/-- C2 as amended: with the external default objects fixed, the outputs
of any two runs agree on every field except the flags' `RootDirectory`
and the configuration's `StaticPodPath`, which come from the freshly
created temporary directories. -/
theorem hollow_config_determinism_mod_tempdirs (env1 env2 : Env)
    (n : String) (p rp mp ppc : Int)
    (hf : env1.defaultFlags = env2.defaultFlags)
    (hc : env1.defaultConfig = env2.defaultConfig) :
    Option.map
        (fun fc => ({ fc.1 with RootDirectory := "" },
                    { fc.2 with StaticPodPath := "" }))
        (GetHollowKubeletConfig env1 n p rp mp ppc)
      = Option.map
        (fun fc => ({ fc.1 with RootDirectory := "" },
                    { fc.2 with StaticPodPath := "" }))
        (GetHollowKubeletConfig env2 n p rp mp ppc) := by
  unfold GetHollowKubeletConfig
  rw [hf, hc]
  cases hd : env2.defaultConfig <;> simp [hd]

/-- C2 witness: the masked outputs of the two concrete environments
`envA` and `envB` coincide at a concrete input tuple. -/
theorem hollow_config_determinism_mod_tempdirs_witness :
    Option.map
        (fun fc => ({ fc.1 with RootDirectory := "" },
                    { fc.2 with StaticPodPath := "" }))
        (GetHollowKubeletConfig envA "n" 80 81 5 3)
      = Option.map
        (fun fc => ({ fc.1 with RootDirectory := "" },
                    { fc.2 with StaticPodPath := "" }))
        (GetHollowKubeletConfig envB "n" 80 81 5 3) :=
  hollow_config_determinism_mod_tempdirs envA envB "n" 80 81 5 3 rfl rfl

/-- C5 counterexample: at `kubeletPort = 2^31` the stored `Port` field is
the wrapped value `-2^31`, not `kubeletPort`, so the claim's unqualified
"Port equals kubeletPort" fails. -/
theorem hollow_config_port_truncates :
    Option.map (fun fc => fc.2.Port)
        (GetHollowKubeletConfig envA "node" 2147483648 0 0 0)
      ≠ some 2147483648 := by decide

/-- C5 as amended: the flags' hostname override equals `nodeName` and the
provider identifier is `"kubemark://"` followed by `nodeName`; the
configuration's `Port`, `ReadOnlyPort`, `MaxPods` and `PodsPerCore` equal
the 32-bit narrowing of the respective argument, hence the argument
itself whenever it lies in the signed 32-bit range. -/
theorem hollow_config_plumbs_inputs (env : Env) (n : String)
    (p rp mp ppc : Int) (fc : KubeletFlags × KubeletConfiguration)
    (h : GetHollowKubeletConfig env n p rp mp ppc = some fc) :
    fc.1.HostnameOverride = n
    ∧ fc.1.ProviderID = "kubemark://" ++ n
    ∧ fc.2.Port = int32Of p
    ∧ fc.2.ReadOnlyPort = int32Of rp
    ∧ fc.2.MaxPods = int32Of mp
    ∧ fc.2.PodsPerCore = int32Of ppc
    ∧ (-(2 ^ 31) ≤ p ∧ p < 2 ^ 31 → fc.2.Port = p)
    ∧ (-(2 ^ 31) ≤ rp ∧ rp < 2 ^ 31 → fc.2.ReadOnlyPort = rp)
    ∧ (-(2 ^ 31) ≤ mp ∧ mp < 2 ^ 31 → fc.2.MaxPods = mp)
    ∧ (-(2 ^ 31) ≤ ppc ∧ ppc < 2 ^ 31 → fc.2.PodsPerCore = ppc) := by
  obtain ⟨c0, hd, h1, h2⟩ := getHollowKubeletConfig_cases env n p rp mp ppc fc h
  rw [h1, h2]
  refine ⟨rfl, rfl, rfl, rfl, rfl, rfl,
    fun hr => ?_, fun hr => ?_, fun hr => ?_, fun hr => ?_⟩
  · exact (int32Of_spec p).2.2.2.1 hr
  · exact (int32Of_spec rp).2.2.2.1 hr
  · exact (int32Of_spec mp).2.2.2.1 hr
  · exact (int32Of_spec ppc).2.2.2.1 hr

/-- C5 witness: the plumbing evaluated at a concrete environment and a
concrete in-range input tuple. -/
theorem hollow_config_plumbs_inputs_witness :
    sampleOut.1.HostnameOverride = "n" ∧ sampleOut.2.Port = 80 :=
  ⟨(hollow_config_plumbs_inputs envA "n" 80 81 5 3 sampleOut rfl).1,
   (hollow_config_plumbs_inputs envA "n" 80 81 5 3 sampleOut rfl).2.2.2.2.2.2.1
     (by decide)⟩

/-- C9: every successfully built configuration has its image-GC low
threshold (80) strictly below its high threshold (90) and carries the
fixed constants: bind address `0.0.0.0`, empty cluster-DNS list, empty
static-pod URL, 20-second file- and HTTP-check frequencies, 10-second
node-status update frequency, registry pull QPS 5 and burst 10. -/
theorem hollow_config_fixed_constants (env : Env) (n : String)
    (p rp mp ppc : Int) (fc : KubeletFlags × KubeletConfiguration)
    (h : GetHollowKubeletConfig env n p rp mp ppc = some fc) :
    fc.2.ImageGCLowThresholdPercent < fc.2.ImageGCHighThresholdPercent
    ∧ fc.2.ImageGCLowThresholdPercent = 80
    ∧ fc.2.ImageGCHighThresholdPercent = 90
    ∧ fc.2.Address = "0.0.0.0"
    ∧ fc.2.ClusterDNS = []
    ∧ fc.2.StaticPodURL = ""
    ∧ fc.2.FileCheckFrequency = 20 * second
    ∧ fc.2.HTTPCheckFrequency = 20 * second
    ∧ fc.2.NodeStatusUpdateFrequency = 10 * second
    ∧ fc.2.RegistryPullQPS = 5
    ∧ fc.2.RegistryBurst = 10 := by
  obtain ⟨c0, hd, h1, h2⟩ := getHollowKubeletConfig_cases env n p rp mp ppc fc h
  rw [h2]
  exact ⟨by norm_num, rfl, rfl, rfl, rfl, rfl, rfl, rfl, rfl, rfl, rfl⟩

/-- C9 witness: the invariant and two of the constants evaluated at a
concrete environment and input tuple. -/
theorem hollow_config_fixed_constants_witness :
    sampleOut.2.ImageGCLowThresholdPercent
        < sampleOut.2.ImageGCHighThresholdPercent
    ∧ sampleOut.2.Address = "0.0.0.0" :=
  ⟨(hollow_config_fixed_constants envA "n" 80 81 5 3 sampleOut rfl).1,
   (hollow_config_fixed_constants envA "n" 80 81 5 3 sampleOut rfl).2.2.2.1⟩

/-- C10: the four integer inputs are narrowed to 32-bit signed fields
with no range check: each stored field is congruent to its input modulo
`2^32`, lies in the signed 32-bit range, equals the input exactly when
the input lies in that range, and differs from the input otherwise. -/
theorem hollow_config_int32_narrowing (env : Env) (n : String)
    (p rp mp ppc : Int) (fc : KubeletFlags × KubeletConfiguration)
    (h : GetHollowKubeletConfig env n p rp mp ppc = some fc) :
    ((fc.2.Port - p) % 2 ^ 32 = 0
      ∧ -(2 ^ 31) ≤ fc.2.Port ∧ fc.2.Port < 2 ^ 31
      ∧ (-(2 ^ 31) ≤ p ∧ p < 2 ^ 31 → fc.2.Port = p)
      ∧ (p < -(2 ^ 31) ∨ 2 ^ 31 ≤ p → fc.2.Port ≠ p))
    ∧ ((fc.2.ReadOnlyPort - rp) % 2 ^ 32 = 0
      ∧ -(2 ^ 31) ≤ fc.2.ReadOnlyPort ∧ fc.2.ReadOnlyPort < 2 ^ 31
      ∧ (-(2 ^ 31) ≤ rp ∧ rp < 2 ^ 31 → fc.2.ReadOnlyPort = rp)
      ∧ (rp < -(2 ^ 31) ∨ 2 ^ 31 ≤ rp → fc.2.ReadOnlyPort ≠ rp))
    ∧ ((fc.2.MaxPods - mp) % 2 ^ 32 = 0
      ∧ -(2 ^ 31) ≤ fc.2.MaxPods ∧ fc.2.MaxPods < 2 ^ 31
      ∧ (-(2 ^ 31) ≤ mp ∧ mp < 2 ^ 31 → fc.2.MaxPods = mp)
      ∧ (mp < -(2 ^ 31) ∨ 2 ^ 31 ≤ mp → fc.2.MaxPods ≠ mp))
    ∧ ((fc.2.PodsPerCore - ppc) % 2 ^ 32 = 0
      ∧ -(2 ^ 31) ≤ fc.2.PodsPerCore ∧ fc.2.PodsPerCore < 2 ^ 31
      ∧ (-(2 ^ 31) ≤ ppc ∧ ppc < 2 ^ 31 → fc.2.PodsPerCore = ppc)
      ∧ (ppc < -(2 ^ 31) ∨ 2 ^ 31 ≤ ppc → fc.2.PodsPerCore ≠ ppc)) := by
  obtain ⟨c0, hd, h1, h2⟩ := getHollowKubeletConfig_cases env n p rp mp ppc fc h
  rw [h2]
  exact ⟨int32Of_spec p, int32Of_spec rp, int32Of_spec mp, int32Of_spec ppc⟩

/-- C10 witness: the congruence and the exact-equality case evaluated at
a concrete environment and an in-range input. -/
theorem hollow_config_int32_narrowing_witness :
    (sampleOut.2.Port - 80) % 2 ^ 32 = 0 ∧ sampleOut.2.Port = 80 :=
  ⟨(hollow_config_int32_narrowing envA "n" 80 81 5 3 sampleOut rfl).1.1,
   (hollow_config_int32_narrowing envA "n" 80 81 5 3 sampleOut rfl).1.2.2.2.1
     (by decide)⟩
